import Mathlib

set_option linter.unusedVariables false

/-!
# AI Todo App — shallow embedding and verification

This file embeds the server-side logic of the AI todo application:
the data model (users, tasks), the Groq AI wrapper (`generateTaskInsights`,
`generateReport`, `generateTaskTags` with their JSON-extraction pipeline and
deterministic fallbacks), and the Express route handlers registered in
`server/routes.ts`.  The external LLM call is modelled as an `AIOutcome`
oracle (the call either throws or replies with a text); everything after the
call is translated directly from the source.  The storage layer (`storage.ts`)
is not part of the provided sources; its operations are modelled from the
specification's description of the task store and marked as such.
-/

namespace TodoApp

/-- A user row, from the `users` table in `@shared/schema`
(`createdAt` is irrelevant to the verified properties and omitted). -/
structure User where
  id : Nat
  username : String
  password : String
deriving Repr, DecidableEq

/-- A task row, from the `tasks` table in `@shared/schema`.  Timestamps are
modelled as opaque strings; `createdAt` is omitted as irrelevant. -/
structure Task where
  id : Nat
  userId : Nat
  title : String
  description : Option String
  priority : String
  dueDate : Option String
  completed : Bool
  aiTags : Option (List String)
  aiNotes : Option String
deriving Repr, DecidableEq

/-! ## JavaScript string primitives used by the Groq service -/

/-- Model of the JavaScript whitespace class used by `String.prototype.trim`. -/
def isJsWhitespace (c : Char) : Bool := c.isWhitespace

/-- Drop whitespace from both ends of a character list. -/
def trimChars (l : List Char) : List Char :=
  ((l.dropWhile isJsWhitespace).reverse.dropWhile isJsWhitespace).reverse

/-- Model of JavaScript `String.prototype.trim`. -/
def jsTrim (s : String) : String := ⟨trimChars s.data⟩

/-- Model of JavaScript `tag.includes('\n')`. -/
def containsNewline (s : String) : Bool := s.data.contains '\n'

/-- Split a character list at every occurrence of the separator character
(auxiliary for the model of JavaScript `split`). -/
def splitCharAux (sep : Char) : List Char → List Char → List (List Char)
  | [], acc => [acc.reverse]
  | c :: rest, acc =>
    if c == sep then acc.reverse :: splitCharAux sep rest []
    else splitCharAux sep rest (c :: acc)

/-- Model of JavaScript `content.split(',')`: splitting the empty string
yields `[""]`, and adjacent separators yield empty fragments. -/
def jsSplitComma (s : String) : List String :=
  (splitCharAux ',' s.data []).map String.mk

/-! ## The external AI call

`this.model.invoke(...)` either throws (network/API error) or resolves with a
textual reply; the reply content is the only part of the environment the
post-processing code observes. -/

/-- Outcome of one external text-generation call. -/
inductive AIOutcome where
  | throws
  | replies (content : String)
deriving Repr, DecidableEq

/-! ## `GroqService.generateTaskTags`

From the source: split the reply on commas, trim each fragment, keep the
non-empty fragments that contain no newline, truncate to three, and coerce an
empty result (or a thrown call) to the single literal tag `"task"`.
The `title`/`description` arguments only feed the prompt, which the oracle
abstracts. -/
def generateTaskTags (o : AIOutcome) (title description : String) : List String :=
  match o with
  | .throws => ["task"]
  | .replies content =>
      let tags := (((jsSplitComma content).map jsTrim).filter
        (fun tag => tag.length > 0 && !(containsNewline tag))).take 3
      if tags.length > 0 then tags else ["task"]

/-! ## JSON values

`JSON.parse` output, as observed by the validators: the service inspects the
parsed value with `typeof`, `Array.isArray` and property access only.  Number
tokens are kept as their lexemes; no claim depends on numeric values. -/

/-- A parsed JSON value. -/
inductive Json where
  | str (s : String)
  | num (lexeme : String)
  | bool (b : Bool)
  | null
  | arr (items : List Json)
  | obj (fields : List (String × Json))

/-- JavaScript property access `j.key` on a parsed JSON value: defined (and
used by the validators) only when `j` is an object; duplicate keys resolve to
the last occurrence, as in `JSON.parse`. -/
def Json.getField (j : Json) (key : String) : Option Json :=
  match j with
  | .obj fields => (fields.reverse.find? (fun kv => kv.1 == key)).map (fun kv => kv.2)
  | _ => none

/-- `typeof j === 'string'`. -/
def Json.isStr : Json → Bool
  | .str _ => true
  | _ => false

/-! ## A model of `JSON.parse`

A fuel-indexed recursive-descent parser for the JSON grammar.  It returns
`none` exactly when `JSON.parse` would throw (up to minor lexical corner
cases that no claim depends on). -/

/-- Skip JSON insignificant whitespace. -/
def skipWs : List Char → List Char
  | [] => []
  | c :: r => if c == ' ' || c == '\n' || c == '\t' || c == '\r' then skipWs r else c :: r

/-- Value of one hexadecimal digit. -/
def hexVal (c : Char) : Option Nat :=
  if '0' ≤ c ∧ c ≤ '9' then some (c.toNat - '0'.toNat)
  else if 'a' ≤ c ∧ c ≤ 'f' then some (c.toNat - 'a'.toNat + 10)
  else if 'A' ≤ c ∧ c ≤ 'F' then some (c.toNat - 'A'.toNat + 10)
  else none

/-- Translate a JSON single-character escape. -/
def unescape (e : Char) : Option Char :=
  if e == '"' then some '"'
  else if e == '\\' then some '\\'
  else if e == '/' then some '/'
  else if e == 'b' then some (Char.ofNat 8)
  else if e == 'f' then some (Char.ofNat 12)
  else if e == 'n' then some '\n'
  else if e == 'r' then some '\r'
  else if e == 't' then some '\t'
  else none

/-- Parse the body of a JSON string after the opening quote; returns the
decoded characters and the input after the closing quote. -/
def parseStringChars : List Char → Option (List Char × List Char)
  | [] => none
  | c :: r =>
    if c == '"' then some ([], r)
    else if c == '\\' then
      match r with
      | [] => none
      | e :: r2 =>
        if e == 'u' then
          match r2 with
          | h1 :: h2 :: h3 :: h4 :: r3 =>
            match hexVal h1, hexVal h2, hexVal h3, hexVal h4 with
            | some a, some b, some c2, some d =>
              (parseStringChars r3).map (fun p => (Char.ofNat (((a*16+b)*16+c2)*16+d) :: p.1, p.2))
            | _, _, _, _ => none
          | _ => none
        else
          match unescape e with
          | none => none
          | some ch => (parseStringChars r2).map (fun p => (ch :: p.1, p.2))
    else if c.toNat < 32 then none
    else (parseStringChars r).map (fun p => (c :: p.1, p.2))

/-- Parse the optional exponent part of a JSON number, appending to the lexeme. -/
def parseExpPart (lex : List Char) (cs : List Char) : Option (List Char × List Char) :=
  match cs with
  | 'e' :: r | 'E' :: r =>
    let (s2, r2) : List Char × List Char :=
      match r with
      | '+' :: t => (['+'], t)
      | '-' :: t => (['-'], t)
      | _ => ([], r)
    let ed := r2.takeWhile Char.isDigit
    if ed.isEmpty then none
    else some (lex ++ 'e' :: s2 ++ ed, r2.dropWhile Char.isDigit)
  | _ => some (lex, cs)

/-- Parse a JSON number token, returning its lexeme and the rest of the input. -/
def parseNumberToken (cs : List Char) : Option (List Char × List Char) :=
  let (sign, r0) : List Char × List Char :=
    match cs with
    | '-' :: r => (['-'], r)
    | _ => ([], cs)
  let ip := r0.takeWhile Char.isDigit
  let r1 := r0.dropWhile Char.isDigit
  if ip.isEmpty then none
  else
    match r1 with
    | '.' :: r2 =>
      let fp := r2.takeWhile Char.isDigit
      if fp.isEmpty then none
      else parseExpPart (sign ++ ip ++ '.' :: fp) (r2.dropWhile Char.isDigit)
    | _ => parseExpPart (sign ++ ip) r1

mutual

/-- Parse one JSON value. -/
def parseValue : Nat → List Char → Option (Json × List Char)
  | 0, _ => none
  | Nat.succ fuel, cs =>
    match skipWs cs with
    | [] => none
    | 'n' :: r => if ['u','l','l'].isPrefixOf r then some (.null, r.drop 3) else none
    | 't' :: r => if ['r','u','e'].isPrefixOf r then some (.bool true, r.drop 3) else none
    | 'f' :: r => if ['a','l','s','e'].isPrefixOf r then some (.bool false, r.drop 4) else none
    | '"' :: r => (parseStringChars r).map (fun p => (.str ⟨p.1⟩, p.2))
    | '[' :: r =>
        (match skipWs r with
         | ']' :: r2 => some (.arr [], r2)
         | r2 => parseElems fuel r2 [])
    | '\x7b' :: r =>
        (match skipWs r with
         | '\x7d' :: r2 => some (.obj [], r2)
         | r2 => parseMembers fuel r2 [])
    | other => (parseNumberToken other).map (fun p => (.num ⟨p.1⟩, p.2))

/-- Parse the comma-separated elements of a JSON array (after at least one
element is known to be present). -/
def parseElems : Nat → List Char → List Json → Option (Json × List Char)
  | 0, _, _ => none
  | Nat.succ fuel, cs, acc =>
    match parseValue fuel cs with
    | none => none
    | some (v, rest) =>
      match skipWs rest with
      | ',' :: r2 => parseElems fuel r2 (acc ++ [v])
      | ']' :: r2 => some (.arr (acc ++ [v]), r2)
      | _ => none

/-- Parse the comma-separated members of a JSON object (after at least one
member is known to be present). -/
def parseMembers : Nat → List Char → List (String × Json) → Option (Json × List Char)
  | 0, _, _ => none
  | Nat.succ fuel, cs, acc =>
    match skipWs cs with
    | '"' :: r =>
      (match parseStringChars r with
       | none => none
       | some (key, r2) =>
         match skipWs r2 with
         | ':' :: r3 =>
           (match parseValue fuel r3 with
            | none => none
            | some (v, r4) =>
              match skipWs r4 with
              | ',' :: r5 => parseMembers fuel r5 (acc ++ [(⟨key⟩, v)])
              | '\x7d' :: r5 => some (.obj (acc ++ [(⟨key⟩, v)]), r5)
              | _ => none)
         | _ => none)
    | _ => none

end

/-- Model of `JSON.parse`: parse one value and require only trailing
whitespace. -/
def parseJson (s : String) : Option Json :=
  match parseValue (2 * s.length + 2) s.data with
  | some (v, rest) => if skipWs rest = [] then some v else none
  | none => none

/-! ## JSON extraction from the model reply

The service locates a JSON substring with a prioritized sequence of regex
matches: a fenced ```json block, an inline code span, or a bare brace-to-brace
region, then takes `jsonMatch[1] || jsonMatch[0]` (so an *empty* capture falls
back to the whole match, per JavaScript truthiness). -/

/-- First index at which `needle` occurs in the haystack (leftmost match, as a
regex engine scans). -/
def firstIndexOf (needle : List Char) : List Char → Option Nat
  | [] => if needle.isPrefixOf ([] : List Char) then some 0 else none
  | c :: rest =>
    if needle.isPrefixOf (c :: rest) then some 0
    else (firstIndexOf needle rest).map (· + 1)

/-- Model of `content.match(/```json\n([\s\S]*?)\n```/)`: returns the capture
group and the whole match. -/
def matchFencedJson (cs : List Char) : Option (List Char × List Char) :=
  match firstIndexOf ("```json\n".data) cs with
  | none => none
  | some i =>
    let afterStart := cs.drop (i + 8)
    match firstIndexOf ("\n```".data) afterStart with
    | none => none
    | some j =>
      let capture := afterStart.take j
      some (capture, "```json\n".data ++ capture ++ "\n```".data)

/-- Model of `content.match(/`([\s\S]*?)`/)`: text between the first backtick
and the next one. -/
def matchInlineCode (cs : List Char) : Option (List Char × List Char) :=
  match firstIndexOf ['`'] cs with
  | none => none
  | some i =>
    let after := cs.drop (i + 1)
    match firstIndexOf ['`'] after with
    | none => none
    | some j =>
      let capture := after.take j
      some (capture, '`' :: capture ++ ['`'])

/-- Last index of a character in a list. -/
def lastIndexOfChar (c : Char) (l : List Char) : Option Nat :=
  (l.reverse.findIdx? (fun x => x == c)).map (fun k => l.length - 1 - k)

/-- Model of `content.match(/\x7b[\s\S]*\x7d/)`: greedy match from the first
opening brace to the last closing brace after it (no capture group). -/
def matchBraces (cs : List Char) : Option (List Char) :=
  match firstIndexOf ['\x7b'] cs with
  | none => none
  | some i =>
    let after := cs.drop i
    match lastIndexOfChar '\x7d' after with
    | none => none
    | some j => if j = 0 then none else some (after.take (j + 1))

/-- `jsonMatch[1] || jsonMatch[0]`: an empty capture is falsy in JavaScript,
so it falls back to the whole match. -/
def pickCaptureOrWhole (capture whole : List Char) : List Char :=
  if capture.isEmpty then whole else capture

/-- The `jsonString` the service would pass to `JSON.parse`, or `none` when
"No JSON found in response". -/
def extractJsonString (content : String) : Option String :=
  let cs := content.data
  match matchFencedJson cs with
  | some (cap, whole) => some ⟨pickCaptureOrWhole cap whole⟩
  | none =>
    match matchInlineCode cs with
    | some (cap, whole) => some ⟨pickCaptureOrWhole cap whole⟩
    | none =>
      match matchBraces cs with
      | some whole => some ⟨whole⟩
      | none => none

/-! ## The derived, non-persisted artifacts and their validators -/

/-- One named group of task titles inside `TaskInsights`. -/
structure TaskInsightGroup where
  name : String
  tasks : List String
deriving Repr, DecidableEq

/-- The `TaskInsights` interface of the Groq service. -/
structure TaskInsights where
  taskGroups : List TaskInsightGroup
  recommendations : List String
  completionRate : String
deriving Repr, DecidableEq

/-- The executive-summary section of a `TaskReport`. -/
structure ExecutiveSummary where
  summary : String
  metrics : List String
deriving Repr, DecidableEq

/-- The `TaskReport` interface of the Groq service. -/
structure TaskReport where
  executiveSummary : ExecutiveSummary
  taskAnalysis : String
  productivityMetrics : String
  workStyleAnalysis : String
  recommendations : List String
deriving Repr, DecidableEq

/-- Serialization of a `TaskInsights` object as returned through `res.json`. -/
def insightsToJson (i : TaskInsights) : Json :=
  .obj [("taskGroups", .arr (i.taskGroups.map (fun g =>
           .obj [("name", .str g.name), ("tasks", .arr (g.tasks.map Json.str))]))),
        ("recommendations", .arr (i.recommendations.map Json.str)),
        ("completionRate", .str i.completionRate)]

/-- Serialization of a `TaskReport` object as returned through `res.json`. -/
def reportToJson (r : TaskReport) : Json :=
  .obj [("executiveSummary", .obj [("summary", .str r.executiveSummary.summary),
                                   ("metrics", .arr (r.executiveSummary.metrics.map Json.str))]),
        ("taskAnalysis", .str r.taskAnalysis),
        ("productivityMetrics", .str r.productivityMetrics),
        ("workStyleAnalysis", .str r.workStyleAnalysis),
        ("recommendations", .arr (r.recommendations.map Json.str))]

/-- `GroqService.validateInsightsStructure`, translated from the source
(shallow: the elements of each group's `tasks` array are not inspected). -/
def validateInsightsStructure (j : Json) : Bool :=
  match j with
  | .obj _ =>
    (match j.getField "taskGroups" with
     | some (.arr gs) =>
        gs.all (fun g =>
          (match g.getField "name" with | some (.str _) => true | _ => false) &&
          (match g.getField "tasks" with | some (.arr _) => true | _ => false))
     | _ => false) &&
    (match j.getField "recommendations" with | some (.arr _) => true | _ => false) &&
    (match j.getField "completionRate" with | some (.str _) => true | _ => false)
  | _ => false

/-- `GroqService.validateReportStructure`, translated from the source
(property access on a non-object yields `undefined`, and the `null` case
throws into the validator's own catch, both yielding `false`). -/
def validateReportStructure (j : Json) : Bool :=
  match j with
  | .obj _ =>
    (match j.getField "executiveSummary" with
     | some es =>
        (match es.getField "summary" with | some (.str _) => true | _ => false) &&
        (match es.getField "metrics" with | some (.arr _) => true | _ => false)
     | none => false) &&
    (match j.getField "taskAnalysis" with | some (.str _) => true | _ => false) &&
    (match j.getField "productivityMetrics" with | some (.str _) => true | _ => false) &&
    (match j.getField "workStyleAnalysis" with | some (.str _) => true | _ => false) &&
    (match j.getField "recommendations" with | some (.arr _) => true | _ => false)
  | _ => false

/-! ## Fallback objects -/

/-- Model of JavaScript `Math.round` on the exact rational value:
round half towards positive infinity. -/
def jsRound (q : ℚ) : ℤ := ⌊q + 1/2⌋

/-- `GroqService.getFallbackInsights`, translated from the source. -/
def getFallbackInsights (tasks : List Task) : TaskInsights :=
  let completedTasks := tasks.filter (fun t => t.completed)
  let completionRate : ℤ :=
    if tasks.length > 0 then
      jsRound ((completedTasks.length : ℚ) / (tasks.length : ℚ) * 100)
    else 0
  { taskGroups := [{ name := "All Tasks", tasks := tasks.map (fun t => t.title) }],
    recommendations := ["Focus on completing high-priority tasks first",
                        "Review and update task priorities regularly"],
    completionRate := toString completionRate ++ "%" }

/-- `GroqService.getFallbackReport`, translated from the source. -/
def getFallbackReport (tasks : List Task) : TaskReport :=
  let completedTasks := tasks.filter (fun t => t.completed)
  let completionRate : ℤ :=
    if tasks.length > 0 then
      jsRound ((completedTasks.length : ℚ) / (tasks.length : ℚ) * 100)
    else 0
  { executiveSummary :=
      { summary := "Task Management Overview (Generated from fallback)",
        metrics := ["Total Tasks: " ++ toString tasks.length,
                    "Completed Tasks: " ++ toString completedTasks.length,
                    "Completion Rate: " ++ toString completionRate ++ "%",
                    "High Priority Tasks: " ++
                      toString (tasks.filter (fun t => t.priority == "high")).length] },
    taskAnalysis := "A detailed task analysis could not be generated at this time. Please try again later.",
    productivityMetrics := "Current completion rate is " ++ toString completionRate ++
      "%. Task metrics are being calculated.",
    workStyleAnalysis := "Work style analysis is temporarily unavailable. Please try again later.",
    recommendations := ["Consider reviewing and updating task priorities",
                        "Regular task list maintenance is recommended",
                        "Set realistic deadlines for better task management"] }

/-! ## `generateTaskInsights` and `generateReport`

Each returns the produced JSON body together with a flag recording whether
the external text-generation call was invoked. -/

/-- The extract–parse–validate pipeline of `generateTaskInsights` (the parsed
string is used as is). -/
def insightsParsedOk (content : String) : Option Json :=
  match extractJsonString content with
  | none => none
  | some js =>
    match parseJson js with
    | none => none
    | some v => if validateInsightsStructure v then some v else none

/-- The extract–parse–validate pipeline of `generateReport` (the extracted
string is trimmed before `JSON.parse`). -/
def reportParsedOk (content : String) : Option Json :=
  match extractJsonString content with
  | none => none
  | some js =>
    match parseJson (jsTrim js) with
    | none => none
    | some v => if validateReportStructure v then some v else none

/-- `GroqService.generateTaskInsights`: empty task sets short-circuit to the
static fallback without calling the model; otherwise any failure of the call
or of the extract–parse–validate pipeline is absorbed into
`getFallbackInsights`. -/
def generateTaskInsights (o : AIOutcome) (tasks : List Task) : Json × Bool :=
  if tasks.length == 0 then
    (.obj [("taskGroups", .arr []),
           ("recommendations", .arr [.str "Start by adding some tasks to get AI-powered insights"]),
           ("completionRate", .str "0%")], false)
  else
    match o with
    | .throws => (insightsToJson (getFallbackInsights tasks), true)
    | .replies content =>
      ((match insightsParsedOk content with
        | some v => v
        | none => insightsToJson (getFallbackInsights tasks)), true)

/-- `GroqService.generateReport`: empty task sets short-circuit to the
fallback report without calling the model; otherwise any failure of the call
or of the pipeline is absorbed into `getFallbackReport`.  The `insights` and
`user` arguments only feed the prompt, which the oracle abstracts. -/
def generateReport (o : AIOutcome) (tasks : List Task) (insights : Json) (user : User) :
    Json × Bool :=
  if tasks.length == 0 then
    (reportToJson (getFallbackReport tasks), false)
  else
    match o with
    | .throws => (reportToJson (getFallbackReport tasks), true)
    | .replies content =>
      ((match reportParsedOk content with
        | some v => v
        | none => reportToJson (getFallbackReport tasks)), true)

/-- The external call failed for the insights pipeline: either the call threw
or no JSON object could be extracted, parsed and validated from the reply. -/
def insightsCallFailed (o : AIOutcome) : Prop :=
  match o with
  | .throws => True
  | .replies content => insightsParsedOk content = none

/-- The external call failed for the report pipeline. -/
def reportCallFailed (o : AIOutcome) : Prop :=
  match o with
  | .throws => True
  | .replies content => reportParsedOk content = none

/-! ## The task store

`server/storage.ts` is not among the provided sources; its operations are
modelled from the specification's §4.2 description of the task store. -/

/-- The persistent state behind the data-access layer: the task table and the
next serial identifier.  (User rows never change in the verified scenarios.) -/
structure StorageState where
  tasks : List Task
  nextId : Nat
deriving Repr, DecidableEq

/-- Modelled from the spec: `storage.getTasksByUserId` — "list-by-user
(returns ordered-by-insertion set)", scoped by owning user. -/
def getTasksByUserId (uid : Nat) (st : StorageState) : List Task :=
  st.tasks.filter (fun t => t.userId == uid)

/-- The argument of `storage.createTask` as built in the POST handler:
the validated payload spread together with `userId` and `aiTags`. -/
structure NewTaskData where
  userId : Nat
  title : String
  description : Option String
  priority : String
  dueDate : Option String
  aiTags : List String
deriving Repr, DecidableEq

/-- Modelled from the spec: `storage.createTask` — "create (assigns
identifier, timestamps, accepts pre-computed AI tags)"; the completion flag
defaults to false. -/
def createTask (data : NewTaskData) (st : StorageState) : Task × StorageState :=
  let t : Task :=
    { id := st.nextId, userId := data.userId, title := data.title,
      description := data.description, priority := data.priority,
      dueDate := data.dueDate, completed := false,
      aiTags := some data.aiTags, aiNotes := none }
  (t, { tasks := st.tasks ++ [t], nextId := st.nextId + 1 })

/-- A partial-update body for PATCH `/api/tasks/:id`: the raw request body,
applied field-wise over the stored row. -/
structure TaskPatch where
  title : Option String := none
  description : Option (Option String) := none
  priority : Option String := none
  dueDate : Option (Option String) := none
  completed : Option Bool := none
deriving Repr, DecidableEq

/-- Apply a partial update over a task row. -/
def applyPatch (t : Task) (p : TaskPatch) : Task :=
  { t with
    title := p.title.getD t.title,
    description := p.description.getD t.description,
    priority := p.priority.getD t.priority,
    dueDate := p.dueDate.getD t.dueDate,
    completed := p.completed.getD t.completed }

/-- Modelled from the spec: `storage.updateTask` — "partial update by
identifier (fails silently with a not-found signal if absent)".  The
operation receives only the task identifier, so it cannot scope the update to
a requesting user. -/
def updateTask (id : Nat) (p : TaskPatch) (st : StorageState) :
    Option Task × StorageState :=
  match st.tasks.find? (fun t => t.id == id) with
  | none => (none, st)
  | some t =>
    let t' := applyPatch t p
    (some t', { st with tasks := st.tasks.map (fun x => if x.id == id then t' else x) })

/-- Modelled from the spec: `storage.deleteTask` — "delete by identifier
(idempotent-style, no error if already absent)". -/
def deleteTask (id : Nat) (st : StorageState) : StorageState :=
  { st with tasks := st.tasks.filter (fun t => !(t.id == id)) }

/-! ## Request validation (`insertTaskSchema` from `@shared/schema`)

`createInsertSchema(tasks).pick(title, description, priority, dueDate)`
extended with `priority: z.enum(["high","medium","low"])` and a `dueDate`
union transform that never fails on `nullish` input.  A failed `parse` throws
a ZodError carrying the offending field paths. -/

/-- A raw POST body as far as the schema inspects it (a field is `none` when
absent or not a string). -/
structure RawTaskBody where
  title : Option String
  description : Option String
  priority : Option String
  dueDate : Option String
deriving Repr, DecidableEq

/-- A validated task-creation payload. -/
structure InsertTask where
  title : String
  description : Option String
  priority : String
  dueDate : Option String
deriving Repr, DecidableEq

/-- `insertTaskSchema.parse`: `title` must be present, `priority` must be one
of the enum values; `description` and `dueDate` are optional and never fail.
The error carries the paths of all offending fields. -/
def insertTaskSchema_parse (b : RawTaskBody) : Except (List String) InsertTask :=
  match b.title, b.priority with
  | some t, some p =>
    if p == "high" || p == "medium" || p == "low" then
      .ok { title := t, description := b.description, priority := p, dueDate := b.dueDate }
    else .error ["priority"]
  | none, some p =>
    if p == "high" || p == "medium" || p == "low" then .error ["title"]
    else .error ["title", "priority"]
  | some _, none => .error ["priority"]
  | none, none => .error ["title", "priority"]

/-! ## Route handlers (`registerRoutes` in `server/routes.ts`)

Each handler first checks `req.isAuthenticated()` (modelled as the presence
of a session user) and returns 401 otherwise. -/

/-- Response of GET `/api/tasks`. -/
inductive TasksListResp where
  | unauthorized
  | ok (tasks : List Task)
deriving Repr, DecidableEq

/-- GET `/api/tasks`: list the caller's tasks. -/
def getTasksHandler (auth : Option User) (st : StorageState) : TasksListResp :=
  match auth with
  | none => .unauthorized
  | some u => .ok (getTasksByUserId u.id st)

/-- Response of POST `/api/tasks`. -/
inductive PostTaskResp where
  | unauthorized
  | badRequest (issues : List String)
  | created (t : Task)
deriving Repr, DecidableEq

/-- HTTP status of a POST `/api/tasks` response. -/
def PostTaskResp.statusCode : PostTaskResp → Nat
  | .unauthorized => 401
  | .badRequest _ => 400
  | .created _ => 201

/-- POST `/api/tasks`: validate the body, compute AI tags synchronously, then
persist.  A ZodError thrown by `parse` aborts the handler before any storage
write; that it surfaces as a Bad-Request-class response with field detail is
modelled from the spec (§7: "validation errors (malformed task payload →
Bad-Request-class, surfaced with field detail)" — the error-translation
middleware is not among the provided sources). -/
def postTasksHandler (auth : Option User) (body : RawTaskBody) (o : AIOutcome)
    (st : StorageState) : PostTaskResp × StorageState :=
  match auth with
  | none => (.unauthorized, st)
  | some u =>
    match insertTaskSchema_parse body with
    | .error issues => (.badRequest issues, st)
    | .ok data =>
      let aiTags := generateTaskTags o data.title (data.description.getD "")
      let (task, st') := createTask
        { userId := u.id, title := data.title, description := data.description,
          priority := data.priority, dueDate := data.dueDate, aiTags := aiTags } st
      (.created task, st')

/-- Response of PATCH `/api/tasks/:id`. -/
inductive PatchTaskResp where
  | unauthorized
  | notFound
  | ok (t : Task)
deriving Repr, DecidableEq

/-- HTTP status of a PATCH `/api/tasks/:id` response. -/
def PatchTaskResp.statusCode : PatchTaskResp → Nat
  | .unauthorized => 401
  | .notFound => 404
  | .ok _ => 200

/-- PATCH `/api/tasks/:id`: the raw body is applied by task identifier with
no validation and no ownership check, exactly as in the source
(`storage.updateTask(parseInt(req.params.id), req.body)`). -/
def patchTasksHandler (auth : Option User) (idParam : Nat) (body : TaskPatch)
    (st : StorageState) : PatchTaskResp × StorageState :=
  match auth with
  | none => (.unauthorized, st)
  | some _ =>
    match updateTask idParam body st with
    | (none, st') => (.notFound, st')
    | (some t, st') => (.ok t, st')

/-- Response of DELETE `/api/tasks/:id`. -/
inductive DeleteTaskResp where
  | unauthorized
  | noContent
deriving Repr, DecidableEq

/-- DELETE `/api/tasks/:id`: deletion by task identifier with no ownership
check, exactly as in the source. -/
def deleteTasksHandler (auth : Option User) (idParam : Nat) (st : StorageState) :
    DeleteTaskResp × StorageState :=
  match auth with
  | none => (.unauthorized, st)
  | some _ => (.noContent, deleteTask idParam st)

/-- Response of the insights endpoints. -/
inductive InsightsResp where
  | unauthorized
  | ok (insights : Json)

/-- GET `/api/insights`: fetch the caller's tasks and generate fresh
insights. -/
def insightsGetHandler (auth : Option User) (o : AIOutcome) (st : StorageState) :
    InsightsResp :=
  match auth with
  | none => .unauthorized
  | some u => .ok (generateTaskInsights o (getTasksByUserId u.id st)).1

/-- POST `/api/insights/refresh`: fetch the caller's tasks and generate fresh
insights (registered separately in the source with an identical body). -/
def insightsRefreshHandler (auth : Option User) (o : AIOutcome) (st : StorageState) :
    InsightsResp :=
  match auth with
  | none => .unauthorized
  | some u => .ok (generateTaskInsights o (getTasksByUserId u.id st)).1

/-- Response of GET `/api/report`. -/
inductive ReportResp where
  | unauthorized
  | noTasks (message : String)
  | ok (report : Json)

/-- HTTP status of a GET `/api/report` response. -/
def ReportResp.statusCode : ReportResp → Nat
  | .unauthorized => 401
  | .noTasks _ => 400
  | .ok _ => 200

/-- GET `/api/report`: 400 with a "no tasks" message when the caller has no
tasks; otherwise insights are computed and passed into report generation.
(The `!report` throw and the catch-all 500 branch of the source are
unreachable in the embedding because both generators are total and always
produce an object.) -/
def reportHandler (auth : Option User) (oInsights oReport : AIOutcome)
    (st : StorageState) : ReportResp :=
  match auth with
  | none => .unauthorized
  | some u =>
    let tasks := getTasksByUserId u.id st
    if tasks.length == 0 then
      .noTasks "No tasks found. Please add some tasks before generating a report."
    else
      let insights := (generateTaskInsights oInsights tasks).1
      .ok (generateReport oReport tasks insights u).1

/-! ## Claim-side structural contracts

These two predicates restate the structural contract as worded in the claim
(strictly: group task lists and recommendation lists must contain strings),
to be checked against what the code's fallback path produces. -/

/-- The insights structural contract as worded in the claim: `taskGroups` an
array of objects with a string `name` and a string-array `tasks`,
`recommendations` a string array, `completionRate` a string. -/
def specInsightsContract (j : Json) : Bool :=
  (match j.getField "taskGroups" with
   | some (.arr gs) =>
      gs.all (fun g =>
        (match g.getField "name" with | some (.str _) => true | _ => false) &&
        (match g.getField "tasks" with | some (.arr ts) => ts.all Json.isStr | _ => false))
   | _ => false) &&
  (match j.getField "recommendations" with
   | some (.arr rs) => rs.all Json.isStr
   | _ => false) &&
  (match j.getField "completionRate" with | some (.str _) => true | _ => false)

/-- The report structural contract as worded in the claim:
`executiveSummary` with a string `summary` and a string-array `metrics`,
three string analysis sections, and a string-array `recommendations`. -/
def specReportContract (j : Json) : Bool :=
  (match j.getField "executiveSummary" with
   | some es =>
      (match es.getField "summary" with | some (.str _) => true | _ => false) &&
      (match es.getField "metrics" with | some (.arr ms) => ms.all Json.isStr | _ => false)
   | none => false) &&
  (match j.getField "taskAnalysis" with | some (.str _) => true | _ => false) &&
  (match j.getField "productivityMetrics" with | some (.str _) => true | _ => false) &&
  (match j.getField "workStyleAnalysis" with | some (.str _) => true | _ => false) &&
  (match j.getField "recommendations" with
   | some (.arr rs) => rs.all Json.isStr
   | _ => false)

/-! ## Helper lemmas -/

theorem dropWhile_idem (p : α → Bool) (l : List α) :
    (l.dropWhile p).dropWhile p = l.dropWhile p := by
  induction l with
  | nil => rfl
  | cons a t ih =>
    by_cases h : p a
    · simp [List.dropWhile_cons, h, ih]
    · simp [List.dropWhile_cons, h]

theorem head?_dropWhile_false (p : α → Bool) (l : List α) (a : α)
    (h : (l.dropWhile p).head? = some a) : p a = false := by
  have := List.head?_dropWhile_not p l
  rw [h] at this
  exact this

theorem dropWhile_eq_self_of_head? (p : α → Bool) (l : List α)
    (h : ∀ a, l.head? = some a → p a = false) : l.dropWhile p = l := by
  cases l with
  | nil => rfl
  | cons a t => simp [List.dropWhile_cons, h a rfl]

theorem head?_eq_of_pfx {l₁ l₂ : List α} (h : l₁ <+: l₂) (hne : l₁ ≠ []) :
    l₂.head? = l₁.head? := by
  obtain ⟨t, rfl⟩ := h
  cases l₁ with
  | nil => exact absurd rfl hne
  | cons a r => rfl

theorem reverse_dropWhile_reverse_pfx (p : α → Bool) (x : List α) :
    ((x.reverse.dropWhile p).reverse) <+: x := by
  obtain ⟨t, ht⟩ : x.reverse.dropWhile p <:+ x.reverse := List.dropWhile_suffix p
  exact ⟨t.reverse, by rw [← List.reverse_append, ht, List.reverse_reverse]⟩

theorem trimChars_idem (l : List Char) : trimChars (trimChars l) = trimChars l := by
  unfold trimChars
  set p := isJsWhitespace with hp
  set x := l.dropWhile p with hx
  set r := x.reverse.dropWhile p with hr
  -- goal: ((r.reverse.dropWhile p).reverse.dropWhile p).reverse = r.reverse
  have hpre : r.reverse <+: x := reverse_dropWhile_reverse_pfx p x
  have hstep : r.reverse.dropWhile p = r.reverse := by
    apply dropWhile_eq_self_of_head?
    intro b hb
    have hne : r.reverse ≠ [] := by
      intro hnil
      rw [hnil] at hb
      simp at hb
    have hhead : x.head? = (r.reverse).head? := head?_eq_of_pfx hpre hne
    have hxb : x.head? = some b := by rw [hhead]; exact hb
    rw [hx] at hxb
    exact head?_dropWhile_false p l b hxb
  rw [hstep]
  have : r.reverse.reverse.dropWhile p = r := by
    rw [List.reverse_reverse, hr, dropWhile_idem]
  rw [this]

theorem jsTrim_idem (s : String) : jsTrim (jsTrim s) = jsTrim s :=
  congrArg String.mk (trimChars_idem s.data)

/-- Every tag list produced on any outcome has length at most three. -/
theorem generateTaskTags_length_le (o : AIOutcome) (title description : String) :
    (generateTaskTags o title description).length ≤ 3 := by
  cases o with
  | throws => simp [generateTaskTags]
  | replies content =>
    unfold generateTaskTags
    simp only
    split
    · exact le_trans (List.length_take_le _ _) (by norm_num)
    · simp

/-- JavaScript `Math.round((c / n) * 100)` on exact rationals equals the
natural-number expression `(200 * c + n) / (2 * n)` (round half up). -/
theorem jsRound_completion (c n : ℕ) (h : 0 < n) :
    jsRound ((c : ℚ) / (n : ℚ) * 100) = ((200 * c + n) / (2 * n) : ℕ) := by
  unfold jsRound
  have hn : (n : ℚ) ≠ 0 := by exact_mod_cast h.ne'
  have heq : (c : ℚ) / (n : ℚ) * 100 + 1/2 = ((200 * c + n : ℕ) : ℚ) / ((2 * n : ℕ) : ℚ) := by
    push_cast
    field_simp
    ring
  rw [heq, Int.floor_eq_iff]
  have hb : 0 < 2 * n := by positivity
  constructor
  · rw [le_div_iff₀ (by positivity)]
    exact_mod_cast Nat.div_mul_le_self (200 * c + n) (2 * n)
  · rw [div_lt_iff₀ (by positivity)]
    have hlt : (200 * c + n) < ((200 * c + n) / (2 * n) + 1) * (2 * n) := by
      have h3 : 2 * n * ((200 * c + n) / (2 * n)) + (200 * c + n) % (2 * n) = 200 * c + n :=
        Nat.div_add_mod _ _
      have h2 : (200 * c + n) % (2 * n) < 2 * n := Nat.mod_lt _ hb
      calc 200 * c + n
          = 2 * n * ((200 * c + n) / (2 * n)) + (200 * c + n) % (2 * n) := h3.symm
        _ < 2 * n * ((200 * c + n) / (2 * n)) + 2 * n := Nat.add_lt_add_left h2 _
        _ = ((200 * c + n) / (2 * n) + 1) * (2 * n) := by ring
    push_cast
    exact_mod_cast hlt

/-- The fallback insights object satisfies the claim-side structural
contract for every task list. -/
theorem specInsightsContract_fallback (tasks : List Task) :
    specInsightsContract (insightsToJson (getFallbackInsights tasks)) = true := by
  simp [specInsightsContract, insightsToJson, getFallbackInsights, Json.getField,
        List.find?, List.all_map, Json.isStr, Function.comp]

/-- The fallback report object satisfies the claim-side structural contract
for every task list. -/
theorem specReportContract_fallback (tasks : List Task) :
    specReportContract (reportToJson (getFallbackReport tasks)) = true := by
  simp [specReportContract, reportToJson, getFallbackReport, Json.getField,
        List.find?, List.all_map, Json.isStr, Function.comp]

/-! ## Claim theorems -/

/-- Claim C1 (code-bug demonstration): cross-user isolation fails for PATCH
and DELETE.  User 1 is authenticated; task 42 belongs to user 2.  User 1's
PATCH request on task 42 returns user 2's task with 200 and marks it
completed in storage, and user 1's DELETE request removes it — while the GET
list for user 1 correctly returns no foreign task.  This contradicts the
claim that task operations invoked by `u` never return or mutate a task
owned by a different user. -/
theorem c1_cross_user_mutation_demo :
    patchTasksHandler (some ⟨1, "alice", "pw1"⟩) 42 { completed := some true }
        ⟨[⟨42, 2, "victim", none, "low", none, false, none, none⟩], 43⟩ =
      (.ok ⟨42, 2, "victim", none, "low", none, true, none, none⟩,
       ⟨[⟨42, 2, "victim", none, "low", none, true, none, none⟩], 43⟩) ∧
    deleteTasksHandler (some ⟨1, "alice", "pw1"⟩) 42
        ⟨[⟨42, 2, "victim", none, "low", none, false, none, none⟩], 43⟩ =
      (.noContent, ⟨[], 43⟩) ∧
    getTasksHandler (some ⟨1, "alice", "pw1"⟩)
        ⟨[⟨42, 2, "victim", none, "low", none, false, none, none⟩], 43⟩ = .ok [] := by
  refine ⟨?_, ?_, ?_⟩ <;> rfl

/-- Claim C2 (counterexample): a PATCH request with a malformed payload
(priority "urgent", outside the enum) is not rejected — the handler applies
the raw body, answers 200, and the stored task now carries the invalid
priority, contradicting the claim for the PATCH endpoint. -/
theorem c2_patch_unvalidated_counterexample :
    patchTasksHandler (some ⟨1, "alice", "pw1"⟩) 1 { priority := some "urgent" }
        ⟨[⟨1, 1, "mytask", none, "low", none, false, none, none⟩], 2⟩ =
      (.ok ⟨1, 1, "mytask", none, "urgent", none, false, none, none⟩,
       ⟨[⟨1, 1, "mytask", none, "urgent", none, false, none, none⟩], 2⟩) ∧
    PatchTaskResp.statusCode (.ok ⟨1, 1, "mytask", none, "urgent", none, false, none, none⟩)
      = 200 :=
  ⟨rfl, rfl⟩

/-- Claim C2 (amended): for POST `/api/tasks`, a body rejected by
`insertTaskSchema` (missing title or a priority outside the enum) yields the
Bad-Request-class validation response carrying the offending field names,
and the storage state is unchanged — no task is created. -/
theorem c2_post_validation_rejects (u : User) (b : RawTaskBody) (o : AIOutcome)
    (st : StorageState) (issues : List String)
    (h : insertTaskSchema_parse b = .error issues) :
    postTasksHandler (some u) b o st = (.badRequest issues, st) ∧
    PostTaskResp.statusCode (.badRequest issues) = 400 := by
  refine ⟨?_, rfl⟩
  simp [postTasksHandler, h]

/-- Witness for C2 (amended): a concrete malformed body — no title, priority
"urgent" — is rejected with both field names and an unchanged store. -/
theorem c2_post_validation_rejects_witness :
    postTasksHandler (some ⟨1, "alice", "pw1"⟩) ⟨none, none, some "urgent", none⟩
        .throws ⟨[], 1⟩ = (.badRequest ["title", "priority"], ⟨[], 1⟩) ∧
    PostTaskResp.statusCode (.badRequest ["title", "priority"]) = 400 :=
  c2_post_validation_rejects ⟨1, "alice", "pw1"⟩ ⟨none, none, some "urgent", none⟩
    .throws ⟨[], 1⟩ ["title", "priority"] rfl

/-- Claim C3: for every non-empty task set, if the external call throws or no
JSON object can be extracted, parsed and validated from its reply, then
`generateTaskInsights` and `generateReport` both return the deterministic
fallback objects, which satisfy the structural contract stated in the
claim. -/
theorem c3_ai_failure_falls_back (tasks : List Task) (h : tasks ≠ [])
    (oi og : AIOutcome) (hi : insightsCallFailed oi) (hg : reportCallFailed og)
    (ins : Json) (u : User) :
    (generateTaskInsights oi tasks).1 = insightsToJson (getFallbackInsights tasks) ∧
    specInsightsContract ((generateTaskInsights oi tasks).1) = true ∧
    (generateReport og tasks ins u).1 = reportToJson (getFallbackReport tasks) ∧
    specReportContract ((generateReport og tasks ins u).1) = true := by
  have hlen : (tasks.length == 0) = false := by
    rw [beq_eq_false_iff_ne]
    simpa using h
  have h1 : (generateTaskInsights oi tasks).1 = insightsToJson (getFallbackInsights tasks) := by
    cases oi with
    | throws => simp [generateTaskInsights, hlen]
    | replies content =>
      have hi' : insightsParsedOk content = none := hi
      simp [generateTaskInsights, hlen, hi']
  have h2 : (generateReport og tasks ins u).1 = reportToJson (getFallbackReport tasks) := by
    cases og with
    | throws => simp [generateReport, hlen]
    | replies content =>
      have hg' : reportParsedOk content = none := hg
      simp [generateReport, hlen, hg']
  refine ⟨h1, ?_, h2, ?_⟩
  · rw [h1]; exact specInsightsContract_fallback tasks
  · rw [h2]; exact specReportContract_fallback tasks

/-- Witness for C3: one completed task; the insights call replies with text
containing no JSON and the report call throws — both results are the
fallback objects and satisfy the contract. -/
theorem c3_ai_failure_falls_back_witness :
    (generateTaskInsights (.replies "no json here")
        [⟨1, 1, "t", none, "low", none, true, none, none⟩]).1 =
      insightsToJson (getFallbackInsights [⟨1, 1, "t", none, "low", none, true, none, none⟩]) ∧
    specInsightsContract ((generateTaskInsights (.replies "no json here")
        [⟨1, 1, "t", none, "low", none, true, none, none⟩]).1) = true ∧
    (generateReport .throws [⟨1, 1, "t", none, "low", none, true, none, none⟩] .null
        ⟨1, "alice", "pw1"⟩).1 =
      reportToJson (getFallbackReport [⟨1, 1, "t", none, "low", none, true, none, none⟩]) ∧
    specReportContract ((generateReport .throws [⟨1, 1, "t", none, "low", none, true, none, none⟩]
        .null ⟨1, "alice", "pw1"⟩).1) = true :=
  c3_ai_failure_falls_back [⟨1, 1, "t", none, "low", none, true, none, none⟩]
    (by simp) (.replies "no json here") .throws rfl trivial .null ⟨1, "alice", "pw1"⟩

/-- Claim C4: on an empty task set, both generators return their documented
fallback objects (for insights: empty `taskGroups`, the single starter
recommendation, completion rate "0%") and the external-call flag is false —
the model is never invoked. -/
theorem c4_empty_no_external_call (o og : AIOutcome) (ins : Json) (u : User) :
    generateTaskInsights o [] =
      (.obj [("taskGroups", .arr []),
             ("recommendations", .arr [.str "Start by adding some tasks to get AI-powered insights"]),
             ("completionRate", .str "0%")], false) ∧
    generateReport og [] ins u = (reportToJson (getFallbackReport []), false) :=
  ⟨rfl, rfl⟩

/-- Claim C5: `generateTaskTags` always returns at most three tags and
returns exactly `["task"]` when the call throws; consequently every task a
POST `/api/tasks` request creates is persisted with an `aiTags` list of
length at most three. -/
theorem c5_tags_at_most_three (o : AIOutcome) (title desc : String) (u : User)
    (b : RawTaskBody) (o' : AIOutcome) (st : StorageState) :
    (generateTaskTags o title desc).length ≤ 3 ∧
    generateTaskTags .throws title desc = ["task"] ∧
    (∀ t st', postTasksHandler (some u) b o' st = (.created t, st') →
      ∃ tags, t.aiTags = some tags ∧ tags.length ≤ 3) := by
  refine ⟨generateTaskTags_length_le o title desc, rfl, ?_⟩
  intro t st' hc
  cases hb : insertTaskSchema_parse b with
  | error issues => simp [postTasksHandler, hb] at hc
  | ok data =>
    simp only [postTasksHandler, hb, createTask] at hc
    rw [Prod.mk.injEq] at hc
    obtain ⟨h1, -⟩ := hc
    injection h1 with h1
    subst h1
    exact ⟨_, rfl, generateTaskTags_length_le o' data.title (data.description.getD "")⟩

/-- Witness for C5: a reply with four comma-separated fragments is truncated
to three tags; a thrown call gives `["task"]`; a concrete POST persists a
two-tag list. -/
theorem c5_tags_at_most_three_witness :
    (generateTaskTags (.replies "a, b, c, d") "T" "D").length ≤ 3 ∧
    generateTaskTags .throws "T" "D" = ["task"] ∧
    (∃ tags,
      (Task.mk 7 1 "T" (some "d") "low" none false (some ["x", "y"]) none).aiTags = some tags ∧
      tags.length ≤ 3) :=
  ⟨(c5_tags_at_most_three (.replies "a, b, c, d") "T" "D" ⟨1, "alice", "pw1"⟩
      ⟨some "T", some "d", some "low", none⟩ (.replies "x, y") ⟨[], 7⟩).1,
   (c5_tags_at_most_three (.replies "a, b, c, d") "T" "D" ⟨1, "alice", "pw1"⟩
      ⟨some "T", some "d", some "low", none⟩ (.replies "x, y") ⟨[], 7⟩).2.1,
   (c5_tags_at_most_three (.replies "a, b, c, d") "T" "D" ⟨1, "alice", "pw1"⟩
      ⟨some "T", some "d", some "low", none⟩ (.replies "x, y") ⟨[], 7⟩).2.2
     (Task.mk 7 1 "T" (some "d") "low" none false (some ["x", "y"]) none)
     ⟨[Task.mk 7 1 "T" (some "d") "low" none false (some ["x", "y"]) none], 8⟩ rfl⟩

/-- Claim C6: for a non-empty task list with `c` completed among `n`, the
fallback insights completion rate is the decimal rendering of
round(100·c/n) — written as the natural number (200·c + n) / (2·n), which
is ⌊100·c/n + 1/2⌋ — followed by "%". -/
theorem c6_fallback_completion_rate (tasks : List Task) (h : 0 < tasks.length) :
    (getFallbackInsights tasks).completionRate =
      toString (((200 * (tasks.filter (fun t => t.completed)).length + tasks.length)
        / (2 * tasks.length) : ℕ)) ++ "%" := by
  unfold getFallbackInsights
  simp only [if_pos h]
  rw [jsRound_completion _ _ h]
  rfl

/-- Witness for C6: two tasks with exactly one completed give "50%". -/
theorem c6_fallback_completion_rate_witness :
    (getFallbackInsights [⟨1, 1, "a", none, "low", none, true, none, none⟩,
                          ⟨2, 1, "b", none, "low", none, false, none, none⟩]).completionRate
      = "50%" :=
  (c6_fallback_completion_rate
      [⟨1, 1, "a", none, "low", none, true, none, none⟩,
       ⟨2, 1, "b", none, "low", none, false, none, none⟩] (by decide)).trans (by decide)

/-- Claim C7: for an authenticated caller, GET `/api/report` answers 400 with
the "no tasks" message exactly when the caller's task set is empty, and on a
non-empty task set it answers 200 with the report generated from the freshly
computed insights. -/
theorem c7_report_400_iff_no_tasks (u : User) (st : StorageState) (oi og : AIOutcome) :
    (reportHandler (some u) oi og st =
        .noTasks "No tasks found. Please add some tasks before generating a report."
      ↔ getTasksByUserId u.id st = []) ∧
    (ReportResp.statusCode (reportHandler (some u) oi og st) = 400
      ↔ getTasksByUserId u.id st = []) ∧
    (getTasksByUserId u.id st ≠ [] →
      reportHandler (some u) oi og st =
        .ok (generateReport og (getTasksByUserId u.id st)
              ((generateTaskInsights oi (getTasksByUserId u.id st)).1) u).1) := by
  by_cases hempty : getTasksByUserId u.id st = []
  · simp [reportHandler, hempty, ReportResp.statusCode]
  · have hlen : ((getTasksByUserId u.id st).length == 0) = false := by
      rw [beq_eq_false_iff_ne]
      simpa using hempty
    simp [reportHandler, hlen, hempty, ReportResp.statusCode]

/-- Witness for C7: with no stored tasks the report endpoint answers the 400
message; with one task it answers 200 with the generated report. -/
theorem c7_report_400_iff_no_tasks_witness :
    reportHandler (some ⟨1, "alice", "pw1"⟩) .throws .throws ⟨[], 0⟩ =
      .noTasks "No tasks found. Please add some tasks before generating a report." ∧
    reportHandler (some ⟨1, "alice", "pw1"⟩) .throws .throws
        ⟨[⟨1, 1, "t", none, "low", none, false, none, none⟩], 2⟩ =
      .ok (generateReport .throws [⟨1, 1, "t", none, "low", none, false, none, none⟩]
            ((generateTaskInsights .throws
              [⟨1, 1, "t", none, "low", none, false, none, none⟩]).1)
            ⟨1, "alice", "pw1"⟩).1 :=
  ⟨(c7_report_400_iff_no_tasks ⟨1, "alice", "pw1"⟩ ⟨[], 0⟩ .throws .throws).1.mpr rfl,
   (c7_report_400_iff_no_tasks ⟨1, "alice", "pw1"⟩
      ⟨[⟨1, 1, "t", none, "low", none, false, none, none⟩], 2⟩ .throws .throws).2.2
     (by simp [getTasksByUserId])⟩

/-- Claim C8: POST `/api/insights/refresh` is a semantically identical alias
of GET `/api/insights`: in every state and for every outcome of the external
call the two handlers return the same response, and for an authenticated
caller that response is the freshly generated insights over the caller's
tasks. -/
theorem c8_refresh_is_get_alias (auth : Option User) (o : AIOutcome) (st : StorageState)
    (u : User) :
    insightsRefreshHandler auth o st = insightsGetHandler auth o st ∧
    insightsGetHandler (some u) o st =
      .ok (generateTaskInsights o (getTasksByUserId u.id st)).1 :=
  ⟨rfl, rfl⟩

/-- Claim C9: creating a task through POST `/api/tasks` from a payload the
schema accepts and then listing through GET `/api/tasks` as the same user
yields a task whose title, priority and description equal the validated
input exactly. -/
theorem c9_create_then_list_roundtrip (u : User) (b : RawTaskBody) (o : AIOutcome)
    (st : StorageState) (data : InsertTask) (hp : insertTaskSchema_parse b = .ok data) :
    getTasksHandler (some u) (postTasksHandler (some u) b o st).2 =
      .ok (getTasksByUserId u.id (postTasksHandler (some u) b o st).2) ∧
    ∃ t' ∈ getTasksByUserId u.id (postTasksHandler (some u) b o st).2,
      t'.title = data.title ∧ t'.priority = data.priority ∧
      t'.description = data.description := by
  refine ⟨rfl, ?_⟩
  simp only [postTasksHandler, hp, createTask]
  refine ⟨{ id := st.nextId, userId := u.id, title := data.title,
            description := data.description, priority := data.priority,
            dueDate := data.dueDate, completed := false,
            aiTags := some (generateTaskTags o data.title (data.description.getD "")),
            aiNotes := none }, ?_, rfl, rfl, rfl⟩
  simp [getTasksByUserId]

/-- Witness for C9: a concrete creation round-trip for user 1 with title
"T", priority "high" and description "d". -/
theorem c9_create_then_list_roundtrip_witness :
    getTasksHandler (some ⟨1, "alice", "pw1"⟩)
        (postTasksHandler (some ⟨1, "alice", "pw1"⟩)
          ⟨some "T", some "d", some "high", none⟩ (.replies "x") ⟨[], 5⟩).2 =
      .ok (getTasksByUserId 1
        (postTasksHandler (some ⟨1, "alice", "pw1"⟩)
          ⟨some "T", some "d", some "high", none⟩ (.replies "x") ⟨[], 5⟩).2) ∧
    ∃ t' ∈ getTasksByUserId 1
        (postTasksHandler (some ⟨1, "alice", "pw1"⟩)
          ⟨some "T", some "d", some "high", none⟩ (.replies "x") ⟨[], 5⟩).2,
      t'.title = "T" ∧ t'.priority = "high" ∧ t'.description = some "d" :=
  c9_create_then_list_roundtrip ⟨1, "alice", "pw1"⟩
    ⟨some "T", some "d", some "high", none⟩ (.replies "x") ⟨[], 5⟩
    ⟨"T", some "d", "high", none⟩ rfl

/-- Claim C10: `generateTaskTags` never returns the empty list, and every
returned tag is non-empty, already trimmed (trimming again changes nothing)
and contains no newline character. -/
theorem c10_tags_wellformed (o : AIOutcome) (title desc : String) :
    generateTaskTags o title desc ≠ [] ∧
    ∀ tag ∈ generateTaskTags o title desc,
      tag ≠ "" ∧ jsTrim tag = tag ∧ containsNewline tag = false := by
  cases o with
  | throws =>
    refine ⟨by simp [generateTaskTags], ?_⟩
    intro tag htag
    simp only [generateTaskTags, List.mem_singleton] at htag
    subst htag
    exact ⟨by decide, by decide, by decide⟩
  | replies content =>
    simp only [generateTaskTags]
    split
    case isTrue hlen =>
      refine ⟨List.length_pos.mp hlen, ?_⟩
      intro tag htag
      have htag' := List.mem_of_mem_take htag
      rw [List.mem_filter] at htag'
      obtain ⟨hmem, hpred⟩ := htag'
      simp only [Bool.and_eq_true, decide_eq_true_eq, Bool.not_eq_true'] at hpred
      obtain ⟨hlen0, hnl⟩ := hpred
      refine ⟨?_, ?_, hnl⟩
      · intro hempty
        rw [hempty] at hlen0
        simp at hlen0
      · obtain ⟨s, -, rfl⟩ := List.mem_map.mp hmem
        exact jsTrim_idem s
    case isFalse hlen =>
      refine ⟨by simp, ?_⟩
      intro tag htag
      simp only [List.mem_singleton] at htag
      subst htag
      exact ⟨by decide, by decide, by decide⟩

/-- Witness for C10: a reply with surrounding blanks and one newline-bearing
fragment yields tags, "alpha" among them, which is non-empty, trimmed and
newline-free. -/
theorem c10_tags_wellformed_witness :
    generateTaskTags (.replies " alpha, beta\ngamma, delta ") "T" "D" ≠ [] ∧
    ("alpha" ≠ "" ∧ jsTrim "alpha" = "alpha" ∧ containsNewline "alpha" = false) :=
  ⟨(c10_tags_wellformed (.replies " alpha, beta\ngamma, delta ") "T" "D").1,
   (c10_tags_wellformed (.replies " alpha, beta\ngamma, delta ") "T" "D").2
     "alpha" (by decide)⟩

end TodoApp
